import Mathlib

/-!
Verification development for the BrainForge front-end.

The definitions below are a shallow embedding of the client-side
data-normalization and quiz/flashcard state-management logic:

* the quiz page (`QuizPage` component): question processing
  (`processQuizData`), the quiz-attempt state machine
  (`handleAnswerSelect`, `handleNextQuestion`, `handlePreviousQuestion`,
  `handleQuizComplete`, the countdown timer effect, the retake action)
  and scoring (`calculateScore`);
* the course context (`CourseContext.jsx`): `extractCourseData`,
  `fetchCourses` with its mock-data fallback, and the question transform
  inside `getQuizData`;
* the upload page (`UploadPage.jsx`): `getActualCourseData`;
* the flashcards page (`FlashcardsPage` component): deck filtering
  (`filteredFlashcards`), study-mode switching and `shuffleCards`.

JavaScript idioms are modelled explicitly: `x || d` on strings, numbers
and booleans via `jsStrOr` / `jsNatOr` / `jsBoolOr` (falsy values are the
empty string, `0` and `false`; absent fields are `Option.none`), sparse
array writes `a[i] = v` via `setAt` (which pads with holes), and
`Math.round` on non-negative numbers via `jsRound` over `ℚ`
(half-up rounding).  `String.prototype.toUpperCase().trim()` is modelled
by `jsUpperTrim`, written with structural recursion over the character
list so that it evaluates on concrete inputs.
-/

namespace BrainForge

/-! ## JavaScript-semantics helpers -/

/-- JS `a || d` for a possibly-absent string field: `undefined` and the
empty string are falsy. -/
def jsStrOr (o : Option String) (d : String) : String :=
  match o with
  | some s => if s = "" then d else s
  | none => d

/-- JS `a || b` kept at the option level (used where the overall result
may still be `undefined`). -/
def jsStrOrOpt (a b : Option String) : Option String :=
  match a with
  | some s => if s = "" then b else some s
  | none => b

/-- JS `n || d` for a possibly-absent numeric field: `undefined` and `0`
are falsy. -/
def jsNatOr (o : Option Nat) (d : Nat) : Nat :=
  match o with
  | some n => if n = 0 then d else n
  | none => d

/-- JS `b || d` for a possibly-absent boolean field. -/
def jsBoolOr (o : Option Bool) (d : Bool) : Bool :=
  match o with
  | some b => if b then true else d
  | none => d

/-- JS truthiness of a possibly-absent string (`undefined`/`null` and
`""` are falsy). -/
def isTruthyStr : Option String → Bool
  | none => false
  | some s => !(s == "")

/-- Strip leading and trailing whitespace from a character list
(the behaviour of `String.prototype.trim` on the code points that occur
in this code base). -/
def trimChars (l : List Char) : List Char :=
  ((l.dropWhile Char.isWhitespace).reverse.dropWhile Char.isWhitespace).reverse

/-- JS `s.toUpperCase().trim()` as used on answer letters. -/
def jsUpperTrim (s : String) : String :=
  String.mk (trimChars (s.data.map Char.toUpper))

/-- Model of `Math.round x` (half-up, ties toward positive infinity), on `ℚ`. -/
def jsRound (x : ℚ) : ℤ := ⌊x + 1 / 2⌋

/-- JS sparse-array write `a[i] = v`: writing past the end pads the
array with holes (`none`). -/
def setAt {α : Type} : List (Option α) → Nat → α → List (Option α)
  | [], 0, a => [some a]
  | [], n + 1, a => none :: setAt [] n a
  | _ :: xs, 0, a => some a :: xs
  | x :: xs, n + 1, a => x :: setAt xs n a

/-- JS sparse-array read `a[i]`: out-of-range reads and holes are both
`undefined`. -/
def getAt {α : Type} (l : List (Option α)) (i : Nat) : Option α :=
  (l[i]?).getD none

/-! ## Quiz page data model (src/unnamed/part_002) -/

/-- A question as produced by `processQuizData` / consumed by the quiz
session. -/
structure Question where
  id : Nat
  question : String
  options : List String
  correctAnswer : String
  explanation : String
  difficulty : String
  knowledgeArea : String
  commonMistake : String
  points : Nat
deriving DecidableEq

/-- A raw question payload as it may arrive from the backend: every
field may be absent, and the answer key may be spelled either
`correct_answer` or `correctAnswer`. -/
structure RawQuestion where
  id : Option Nat := none
  question : Option String := none
  options : Option (List String) := none
  correct_answer : Option String := none
  correctAnswer : Option String := none
  explanation : Option String := none
  difficulty : Option String := none
  knowledgeArea : Option String := none
  commonMistake : Option String := none
  points : Option Nat := none
deriving DecidableEq

/-- The per-question body of `processQuizData` (QuizPage, lines 98-117):
defaults every missing field and sets
`correctAnswer := (q.correct_answer || q.correctAnswer || 'A').toUpperCase().trim()`. -/
def processQuestion (index : Nat) (q : RawQuestion) : Question :=
  { id := jsNatOr q.id (index + 1)
    question := jsStrOr q.question "Question not available"
    options := match q.options with
      | some l => l
      | none => ["Option A not available", "Option B not available",
                 "Option C not available", "Option D not available"]
    correctAnswer := jsUpperTrim (jsStrOr q.correct_answer (jsStrOr q.correctAnswer "A"))
    explanation := jsStrOr q.explanation "Explanation not available"
    difficulty := jsStrOr q.difficulty "medium"
    knowledgeArea := jsStrOr q.knowledgeArea "General Knowledge"
    commonMistake := jsStrOr q.commonMistake "No common mistake information available"
    points := jsNatOr q.points 5 }

/-- A raw quiz payload.  `processQuizData` is only invoked by QuizPage
after checking `quizResponse.quiz && quizResponse.quiz.questions`
(line 51), so the early return for an absent question list is outside
the modelled domain. -/
structure RawQuiz where
  totalQuestions : Option Nat := none
  moduleTitle : Option String := none
  timeLimit : Option Nat := none
  questions : List RawQuestion := []
deriving DecidableEq

/-- A processed quiz, as held in the `quiz` state of QuizPage. -/
structure Quiz where
  totalQuestions : Nat
  moduleTitle : Option String
  timeLimit : Option Nat
  questions : List Question
deriving DecidableEq

/-- Model of `processQuizData` (QuizPage, lines 95-124). -/
def processQuizData (qz : RawQuiz) : Quiz :=
  let processedQuestions := qz.questions.mapIdx (fun i q => processQuestion i q)
  { totalQuestions := processedQuestions.length
    moduleTitle := qz.moduleTitle
    timeLimit := qz.timeLimit
    questions := processedQuestions }

/-- An entry of the `answers` array built by `handleNextQuestion` /
`handleQuizComplete`. -/
structure AnsweredQuestion where
  questionId : Nat
  selectedAnswer : String
  isCorrect : Bool
  points : Nat
  explanation : String
  commonMistake : String
  difficulty : String
  knowledgeArea : String
  correctAnswer : String
deriving DecidableEq

/-- The answer record written at `answers[currentQuestion]`:
`isCorrect` compares `selectedAnswer.toUpperCase().trim()` with
`correctAnswer.toUpperCase().trim()`, and points are awarded iff
correct. -/
def makeAnswer (q : Question) (sel : String) : AnsweredQuestion :=
  let isC := jsUpperTrim sel == jsUpperTrim q.correctAnswer
  { questionId := q.id
    selectedAnswer := sel
    isCorrect := isC
    points := if isC then q.points else 0
    explanation := q.explanation
    commonMistake := q.commonMistake
    difficulty := q.difficulty
    knowledgeArea := q.knowledgeArea
    correctAnswer := q.correctAnswer }

/-- The React state of a loaded quiz session (QuizPage component
state).  `timeLimit` records `quiz.timeLimit || 600` for the retake
action. -/
structure QuizState where
  questions : List Question
  timeLimit : Nat
  currentQuestion : Nat
  selectedAnswer : Option String
  answers : List (Option AnsweredQuestion)
  timeLeft : Nat
  quizCompleted : Bool
  showExplanation : Bool
deriving DecidableEq

/-- Model of `getCurrentQuestionData` (lines 271-276). -/
def getCurrentQuestionData (s : QuizState) : Option Question :=
  s.questions[s.currentQuestion]?

/-- Model of `handleAnswerSelect` (lines 278-281). -/
def handleAnswerSelect (s : QuizState) (answer : String) : QuizState :=
  { s with selectedAnswer := some answer, showExplanation := false }

/-- Model of `handleQuizComplete` (lines 331-356): records the pending selection
at `answers[currentQuestion]` only when that slot is still empty, then
marks the session completed. -/
def handleQuizComplete (s : QuizState) : QuizState :=
  match s.selectedAnswer, getCurrentQuestionData s with
  | some sel, some q =>
    if sel ≠ "" ∧ getAt s.answers s.currentQuestion = none then
      { s with answers := setAt s.answers s.currentQuestion (makeAnswer q sel)
               quizCompleted := true }
    else { s with quizCompleted := true }
  | _, _ => { s with quizCompleted := true }

/-- Model of `handleNextQuestion` (lines 283-321): a no-op unless an answer is
pending; otherwise records the answer and either advances the pointer or
(at the last question) completes the session.  The React source reaches
completion through a `handleQuizComplete()` call that closes over the
pre-update `answers`; it re-records the same `AnsweredQuestion` value at
the same index, so the committed state equals
`handleQuizComplete` applied to the post-record state, which is how it
is written here. -/
def handleNextQuestion (s : QuizState) : QuizState :=
  match s.selectedAnswer, getCurrentQuestionData s with
  | some sel, some q =>
    if sel = "" then s
    else
      let s1 := { s with answers := setAt s.answers s.currentQuestion (makeAnswer q sel) }
      if s.currentQuestion < s.questions.length - 1 then
        { s1 with currentQuestion := s.currentQuestion + 1
                  selectedAnswer := none
                  showExplanation := false }
      else
        handleQuizComplete s1
  | _, _ => s

/-- Model of `handlePreviousQuestion` (lines 323-329).  The restored selection is
`answers[currentQuestion - 1]?.selectedAnswer || null`; recorded
selections are never empty, so the `|| null` collapse is the plain
`Option.map`. -/
def handlePreviousQuestion (s : QuizState) : QuizState :=
  if 0 < s.currentQuestion then
    { s with currentQuestion := s.currentQuestion - 1
             selectedAnswer := (getAt s.answers (s.currentQuestion - 1)).map
               AnsweredQuestion.selectedAnswer
             showExplanation := false }
  else s

/-- The score object returned by `calculateScore`. -/
structure Score where
  points : Nat
  maxPoints : Nat
  percentage : ℤ
  correctAnswers : Nat
  totalQuestions : Nat
deriving DecidableEq

/-- Model of `calculateScore` (lines 358-381).  `answers.reduce` and
`answers.filter` skip holes of the sparse array, which is what the
`Option`-aware folds below do. -/
def calculateScore (s : QuizState) : Score :=
  let totalPoints := (s.answers.map (fun a => (a.map AnsweredQuestion.points).getD 0)).sum
  let maxPoints := (s.questions.map Question.points).sum
  let correctAnswers :=
    (s.answers.filter (fun a => (a.map AnsweredQuestion.isCorrect).getD false)).length
  { points := totalPoints
    maxPoints := maxPoints
    percentage := if 0 < maxPoints then jsRound ((totalPoints : ℚ) / (maxPoints : ℚ) * 100) else 0
    correctAnswers := correctAnswers
    totalQuestions := s.questions.length }

/-! ## Quiz page event model

The user-visible events of an `InProgress` session, guarded by the
rendering conditions of the component: answer buttons exist for the four
letters of the current question; the Next button is rendered only before
the last question; the Complete Quiz button is rendered at the last
question and disabled without a selection; the countdown effect
decrements once per second and fires `handleQuizComplete` at zero; the
Retake button is rendered on the completed view. -/

inductive Event where
  | select (letter : String)
  | next
  | prev
  | completeBtn
  | tick
  | retake
deriving DecidableEq

/-- The four answer buttons rendered for every question. -/
def answerOptions : List String := ["A", "B", "C", "D"]

/-- One UI event applied to a session state. -/
def step (s : QuizState) (e : Event) : QuizState :=
  match e with
  | .select l =>
    if s.quizCompleted = false ∧ l ∈ answerOptions ∧ (getCurrentQuestionData s).isSome then
      handleAnswerSelect s l
    else s
  | .next =>
    if s.quizCompleted = false ∧ s.currentQuestion < s.questions.length - 1 then
      handleNextQuestion s
    else s
  | .prev =>
    if s.quizCompleted = false then handlePreviousQuestion s else s
  | .completeBtn =>
    if s.quizCompleted = false ∧ ¬ s.currentQuestion < s.questions.length - 1
        ∧ isTruthyStr s.selectedAnswer = true then
      handleQuizComplete s
    else s
  | .tick =>
    if 0 < s.timeLeft ∧ s.quizCompleted = false then
      { s with timeLeft := s.timeLeft - 1 }
    else if s.timeLeft = 0 ∧ s.quizCompleted = false then
      handleQuizComplete s
    else s
  | .retake =>
    if s.quizCompleted = true then
      { s with currentQuestion := 0
               selectedAnswer := none
               answers := []
               timeLeft := jsNatOr (some s.timeLimit) 600
               quizCompleted := false }
    else s

/-- The freshly loaded session: question 0, no answers, timer set to
`quiz.timeLimit || 600`. -/
def initState (qs : List Question) (tl : Nat) : QuizState :=
  { questions := qs
    timeLimit := tl
    currentQuestion := 0
    selectedAnswer := none
    answers := []
    timeLeft := jsNatOr (some tl) 600
    quizCompleted := false
    showExplanation := false }

/-- Run a sequence of UI events. -/
def run (s : QuizState) (evs : List Event) : QuizState :=
  evs.foldl step s

/-- The session invariant: the question pointer stays on a question
(or at 0 for an empty quiz), no more answers than questions are ever
recorded, and every recorded answer carries the points of one of the
quiz questions iff it was correct. -/
def Inv (s : QuizState) : Prop :=
  s.currentQuestion < max 1 s.questions.length
  ∧ s.answers.length ≤ s.questions.length
  ∧ ∀ a : AnsweredQuestion, some a ∈ s.answers →
      ∃ q ∈ s.questions, a.points = if a.isCorrect then q.points else 0

/-! ## Course context data model (src/frontend/src/context/CourseContext.jsx) -/

/-- A section of module content (display only). -/
structure SectionRec where
  heading : Option String := none
  content : Option String := none
deriving DecidableEq

/-- Module body content (display only). -/
structure ModuleContent where
  introduction : Option String := none
  sections : List SectionRec := []
deriving DecidableEq

/-- A raw module: passed through `extractCourseData` untouched, read by
`getQuizData` for its `module_number` and `quiz`. -/
structure RawModule where
  module_number : Option Nat := none
  title : Option String := none
  duration_estimate : Option String := none
  learning_objectives : Option (List String) := none
  content : Option ModuleContent := none
  quiz : Option RawQuiz := none
deriving DecidableEq

/-- A raw flashcard object (passed through untouched). -/
structure RawFlashcard where
  id : Option Nat := none
  front : Option String := none
  back : Option String := none
  mnemonic : Option String := none
  category : Option String := none
  importance : Option String := none
  visual_cue : Option String := none
  related_concepts : Option (List String) := none
  difficulty : Option String := none
deriving DecidableEq

/-- The course-shaped fields a payload object can carry, whether it sits
at the top level, under `course_structure.course`, or under
`actualCourse`. -/
structure CoursePayload where
  title : Option String := none
  description : Option String := none
  total_modules : Option Nat := none
  difficulty : Option String := none
  learning_pace : Option String := none
  depth_level : Option String := none
  estimated_duration : Option String := none
  modules : Option (List RawModule) := none
  flashcards : Option (List RawFlashcard) := none
  include_practical : Option Bool := none
  include_case_studies : Option Bool := none
  include_exam_prep : Option Bool := none
deriving DecidableEq

/-- The `course_structure` wrapper, whose `course` field may itself be
absent. -/
structure StructureWrapper where
  course : Option CoursePayload := none
deriving DecidableEq

/-- A raw course object from the backend (or from the mock data).
Its own course-shaped fields live in `payload`; extra fields carried by
the mock objects (`progress`, `lastAccessed`, `isMock`) are kept so the
mock dataset can be written down faithfully. -/
structure RawCourse where
  _id : Option String := none
  id : Option String := none
  content_id : Option String := none
  payload : CoursePayload := {}
  course_structure : Option StructureWrapper := none
  actualCourse : Option CoursePayload := none
  modules_count : Option Nat := none
  flashcards_count : Option Nat := none
  created_at : Option String := none
  progress : Option Nat := none
  lastAccessed : Option String := none
  isMock : Option Bool := none
deriving DecidableEq

/-- The payload-resolution line of `extractCourseData`
(CourseContext.jsx, line 25):
`course.course_structure?.course || course.actualCourse || course`. -/
def resolveCourseStructure (course : RawCourse) : CoursePayload :=
  match course.course_structure.bind StructureWrapper.course with
  | some p => p
  | none =>
    match course.actualCourse with
    | some p => p
    | none => course.payload

/-- The normalized course produced by `extractCourseData`.
`created_at` defaults to `new Date()` in the source, which has no pure
counterpart; it is kept optional here and no claim touches it. -/
structure Course where
  _id : Option String
  content_id : Option String
  title : String
  description : String
  total_modules : Nat
  difficulty : String
  learning_pace : String
  depth_level : String
  estimated_duration : String
  modules : List RawModule
  flashcards : List RawFlashcard
  created_at : Option String
  modules_count : Nat
  flashcards_count : Nat
  has_practical : Bool
  has_case_studies : Bool
  has_exam_prep : Bool
  original_data : RawCourse
deriving DecidableEq

/-- Model of `extractCourseData` (CourseContext.jsx, lines 21-49).
A `null` argument returns `null` (the `if (!course) return null` line);
otherwise every field is defaulted.  Note that `modules_count` falls
back to `courseStructure.modules.length` only (not to the flat
`course.modules`), exactly as in the source. -/
def extractCourseData (o : Option RawCourse) : Option Course :=
  match o with
  | none => none
  | some course =>
    let courseStructure := resolveCourseStructure course
    some
      { _id := jsStrOrOpt course._id course.id
        content_id := course.content_id
        title := jsStrOr courseStructure.title (jsStrOr course.payload.title "Untitled Course")
        description := jsStrOr courseStructure.description
          (jsStrOr course.payload.description "No description available")
        total_modules := jsNatOr courseStructure.total_modules
          (jsNatOr course.payload.total_modules 0)
        difficulty := jsStrOr courseStructure.difficulty
          (jsStrOr course.payload.difficulty "intermediate")
        learning_pace := jsStrOr courseStructure.learning_pace
          (jsStrOr course.payload.learning_pace "medium")
        depth_level := jsStrOr courseStructure.depth_level
          (jsStrOr course.payload.depth_level "comprehensive")
        estimated_duration := jsStrOr courseStructure.estimated_duration
          (jsStrOr course.payload.estimated_duration "Unknown")
        modules := (courseStructure.modules.orElse (fun _ => course.payload.modules)).getD []
        flashcards := (courseStructure.flashcards.orElse (fun _ => course.payload.flashcards)).getD []
        created_at := course.created_at
        modules_count := jsNatOr course.modules_count
          (match courseStructure.modules with
            | some l => l.length
            | none => 0)
        flashcards_count := jsNatOr course.flashcards_count
          (match courseStructure.flashcards with
            | some l => l.length
            | none => 0)
        has_practical := jsBoolOr courseStructure.include_practical
          (jsBoolOr course.payload.include_practical false)
        has_case_studies := jsBoolOr courseStructure.include_case_studies
          (jsBoolOr course.payload.include_case_studies false)
        has_exam_prep := jsBoolOr courseStructure.include_exam_prep
          (jsBoolOr course.payload.include_exam_prep false)
        original_data := course }

/-- Model of `getActualCourseData` (UploadPage.jsx, lines 605-620): it
checks `course.actualCourse` FIRST, then `course.course_structure.course`,
then falls back to the object itself. -/
def getActualCourseData (course : RawCourse) : CoursePayload :=
  match course.actualCourse with
  | some p => p
  | none =>
    match course.course_structure.bind StructureWrapper.course with
    | some p => p
    | none => course.payload

/-- The per-question transform inside `getQuizData`
(CourseContext.jsx, lines 196-206).  Unlike `processQuizData`, it does
NOT upper-case or trim the answer key:
`correctAnswer := q.correct_answer || q.correctAnswer || 'A'`. -/
def transformQuestion (courseTitle : String) (index : Nat) (q : RawQuestion) : Question :=
  { id := jsNatOr q.id (index + 1)
    question := jsStrOr q.question "Question not available"
    options := match q.options with
      | some l => l
      | none => ["Option A", "Option B", "Option C", "Option D"]
    correctAnswer := jsStrOr q.correct_answer (jsStrOr q.correctAnswer "A")
    explanation := jsStrOr q.explanation "Explanation not available"
    difficulty := jsStrOr q.difficulty "medium"
    knowledgeArea := jsStrOr q.knowledgeArea courseTitle
    commonMistake := jsStrOr q.commonMistake "No common mistake information available"
    points := jsNatOr q.points 5 }

/-! ## Course store: fetchCourses and the mock dataset -/

/-- The fixed one-course mock dataset `getMockCourses`
(CourseContext.jsx, lines 326-386), reproduced field for field. -/
def getMockCourses : List RawCourse :=
  [{ _id := some "mock_1"
     payload :=
       { title := some "Data Communications & Networking"
         description := some
           "Comprehensive course on networking fundamentals and protocols with real-world applications"
         estimated_duration := some "3 hours"
         difficulty := some "Intermediate"
         modules := some
           [{ module_number := some 1
              title := some "Introduction to Networking"
              duration_estimate := some "45 minutes"
              learning_objectives := some
                ["Understand basic networking concepts",
                 "Learn about network types and topologies"]
              content := some
                { introduction := some
                    "Networking forms the backbone of modern digital communication."
                  sections :=
                    [{ heading := some "What is a Computer Network?"
                       content := some
                         "A computer network is a collection of interconnected devices that can communicate and share resources." }] }
              quiz := some
                { questions :=
                    [{ question := some "What is the primary purpose of a computer network?"
                       options := some
                         ["A) To share resources and communicate",
                          "B) To increase computer speed",
                          "C) To store more data",
                          "D) To play games"]
                       correct_answer := some "A"
                       explanation := some
                         "Networks primarily enable resource sharing and communication between devices."
                       difficulty := some "easy"
                       points := some 5 }] } }]
         flashcards := some
           [{ id := some 1
              front := some "What is a LAN?"
              back := some
                "Local Area Network - A network covering a small geographical area like an office or building"
              mnemonic := some "LAN = Local Area Network"
              category := some "Network Types"
              importance := some "high" }] }
     modules_count := some 4
     progress := some 75
     lastAccessed := some "2 hours ago"
     created_at := some "new Date().toISOString()"
     isMock := some true }]

/-- An entry of the course store: the success path stores
`extractCourseData` results (which are `null` for `null` list elements),
while the fallback paths store the raw mock objects directly. -/
inductive StoreEntry where
  | processed : Option Course → StoreEntry
  | raw : RawCourse → StoreEntry
deriving DecidableEq

/-- The observable store state left behind by one `fetchCourses` call. -/
structure StoreState where
  courses : List StoreEntry
  error : String
  loading : Bool
deriving DecidableEq

/-- The JSON result of `api.getRecentCourses()`: `success` flag, an
optional `courses` array (whose elements may be `null`), and an optional
`error` message. -/
structure ApiResponse where
  success : Bool
  courses : Option (List (Option RawCourse))
  error : Option String
deriving DecidableEq

/-- Model of `fetchCourses` (CourseContext.jsx, lines 51-107) as a
function of the two awaited outcomes: whether `api.healthCheck()`
succeeded, and the recent-courses result (`Except.error msg` when the
call threw `msg`).  `setError('')` runs first, so `error` is the empty
string on every path that does not call `setError` again - including
the health-check-failure path, which substitutes the mock data with no
error message. -/
def fetchCourses (healthOk : Bool) (resp : Except String ApiResponse) : StoreState :=
  if healthOk = false then
    { courses := getMockCourses.map StoreEntry.raw, error := "", loading := false }
  else
    match resp with
    | .error msg =>
      { courses := getMockCourses.map StoreEntry.raw
        error := "Connection failed: " ++ msg
        loading := false }
    | .ok response =>
      match response.success, response.courses with
      | true, some cs =>
        { courses := cs.map (fun c => StoreEntry.processed (extractCourseData c))
          error := ""
          loading := false }
      | _, _ =>
        { courses := getMockCourses.map StoreEntry.raw
          error := jsStrOr response.error "No courses found"
          loading := false }

/-! ## Flashcards page (FlashcardsPage component, src/frontend/src/pages/SettingsPage.jsx) -/

/-- The three study modes offered by the mode selector buttons (the
`switch` default in `filteredFlashcards` behaves like `all`). -/
inductive StudyMode where
  | all
  | unstudied
  | difficult
deriving DecidableEq

/-- The state of a flashcard review visit: the in-memory deck, the
pointer and flip flag, the persisted studied set
(`studied_{courseId}`) and the persisted difficult list
(`difficult_{courseId}`). -/
structure FlashState where
  flashcards : List RawFlashcard
  currentCard : Nat
  isFlipped : Bool
  studiedCards : Finset Nat
  difficultStore : List Nat
  studyMode : StudyMode
deriving DecidableEq

/-- JS `set.has(card.id)` / `list.includes(card.id)` where `card.id`
may be absent: membership of `undefined` is false. -/
def idMem (id : Option Nat) (l : List Nat) : Bool :=
  match id with
  | some i => i ∈ l
  | none => false

/-- Model of `filteredFlashcards` (lines 220-230): filter the deck by
the active study mode against the persisted sets. -/
def filteredFlashcards (s : FlashState) : List RawFlashcard :=
  s.flashcards.filter (fun card =>
    match s.studyMode with
    | .unstudied =>
      !(match card.id with
        | some i => decide (i ∈ s.studiedCards)
        | none => false)
    | .difficult => idMem card.id s.difficultStore
    | .all => true)

/-- The study-mode selector click (lines 293-299):
`setStudyMode(mode); setCurrentCard(0); setIsFlipped(false)`. -/
def switchMode (s : FlashState) (mode : StudyMode) : FlashState :=
  { s with studyMode := mode, currentCard := 0, isFlipped := false }

/-- Model of `shuffleCards` (lines 168-173).  The source permutes
`filteredFlashcards` with `sort(() => Math.random() - 0.5)`; a sort with
an inconsistent comparator returns some permutation of its input, so the
permutation is taken as a parameter here and the theorems quantify over
every permutation of the filtered deck.  The ENTIRE `flashcards` state
is replaced by it. -/
def shuffleCards (s : FlashState) (shuffled : List RawFlashcard) : FlashState :=
  { s with flashcards := shuffled, currentCard := 0, isFlipped := false }

/-! ## Stated properties and concrete instances

`ScoreSpec` packages the scoring property checked of every completed
session; the remaining definitions are concrete states used to
instantiate the theorems below on explicit inputs. -/

/-- The scoring property: earned points are the points of the correctly
answered questions, max points the points of all questions, the
percentage is `Math.round` of their ratio times 100 (0 when max is 0),
the correct count counts the recorded correct answers, and for a quiz
whose questions are all worth `p > 0` points the percentage reduces to
`round(100 * k / N)`. -/
def ScoreSpec (s : QuizState) : Prop :=
  (calculateScore s).points
      = (((s.answers.filterMap id).filter (fun a => a.isCorrect)).map AnsweredQuestion.points).sum
  ∧ (calculateScore s).maxPoints = (s.questions.map Question.points).sum
  ∧ (calculateScore s).percentage
      = (if 0 < (calculateScore s).maxPoints then
          jsRound (100 * ((calculateScore s).points : ℚ) / ((calculateScore s).maxPoints : ℚ))
        else 0)
  ∧ (calculateScore s).correctAnswers
      = ((s.answers.filterMap id).filter (fun a => a.isCorrect)).length
  ∧ (calculateScore s).totalQuestions = s.questions.length
  ∧ ∀ p : Nat, 0 < p → s.questions ≠ [] → (∀ q ∈ s.questions, q.points = p) →
      (calculateScore s).percentage
        = jsRound (100 * ((calculateScore s).correctAnswers : ℚ) / (s.questions.length : ℚ))

/-- A 10-point question whose correct answer is `B` (the scenario of
the spec). -/
def qB10 : Question :=
  { id := 1
    question := "Which of the following refers to the variation in packet arrival time?"
    options := ["A) Latency", "B) Jitter", "C) Bandwidth", "D) Throughput"]
    correctAnswer := "B"
    explanation := "Jitter is the variation in the arrival time of data packets."
    difficulty := "medium"
    knowledgeArea := "Networking"
    commonMistake := "Confusing jitter with latency"
    points := 10 }

/-- An in-progress one-question session with `B` selected. -/
def sB : QuizState :=
  { questions := [qB10]
    timeLimit := 600
    currentQuestion := 0
    selectedAnswer := some "B"
    answers := []
    timeLeft := 600
    quizCompleted := false
    showExplanation := false }

/-- A session at its last question with an answer already recorded at
the current position and a different pending selection. -/
def sRecorded : QuizState :=
  { questions := [qB10]
    timeLimit := 600
    currentQuestion := 0
    selectedAnswer := some "A"
    answers := [some (makeAnswer qB10 "B")]
    timeLeft := 17
    quizCompleted := false
    showExplanation := false }

/-- Events of the demo run: select `B`, then press Complete Quiz. -/
def demoEvents : List Event := [Event.select "B", Event.completeBtn]

/-- A raw question whose stored answer key is `"e"`: upper-cased and
trimmed it stays `"E"`, outside `{A, B, C, D}`. -/
def rqE : RawQuestion := { correct_answer := some "e" }

/-- A raw question whose stored answer key is `" b "` (the spec
scenario), under the snake-case key. -/
def rqB : RawQuestion := { correct_answer := some " b " }

/-- The same scenario under the camel-case key `correctAnswer`. -/
def rqB2 : RawQuestion := { correctAnswer := some " b " }

/-- An unsuccessful recent-courses response carrying no error message. -/
def respFail : ApiResponse := { success := false, courses := none, error := none }

/-- A permutation (the reversal) of the filtered deck of `flashThree`. -/
def shuffledThree : List RawFlashcard :=
  [{ id := some 3, front := some "card three" },
   { id := some 1, front := some "card one" }]

/-- A payload titled `"one"`. -/
def payloadOne : CoursePayload := { title := some "one" }

/-- A payload titled `"two"`. -/
def payloadTwo : CoursePayload := { title := some "two" }

/-- A raw course carrying BOTH a `course_structure.course` payload and
an `actualCourse` payload, which disagree. -/
def rcBoth : RawCourse :=
  { course_structure := some { course := some payloadOne }
    actualCourse := some payloadTwo }

/-- A raw course with no fields at all (in particular no modules). -/
def rcEmpty : RawCourse := {}

/-- A one-card deck whose only card is already studied. -/
def flashAllStudied : FlashState :=
  { flashcards := [{ id := some 1, front := some "What is a LAN?" }]
    currentCard := 0
    isFlipped := false
    studiedCards := {1}
    difficultStore := []
    studyMode := StudyMode.all }

/-- A three-card deck in difficult mode with one card filtered out,
pointer on the second filtered card, showing the back face. -/
def flashThree : FlashState :=
  { flashcards :=
      [{ id := some 1, front := some "card one" },
       { id := some 2, front := some "card two" },
       { id := some 3, front := some "card three" }]
    currentCard := 1
    isFlipped := true
    studiedCards := ∅
    difficultStore := [1, 3]
    studyMode := StudyMode.difficult }

/-! ## Sparse-array lemmas -/

theorem getAt_cons_zero {α : Type} (x : Option α) (xs : List (Option α)) :
    getAt (x :: xs) 0 = x := by
  simp [getAt]

theorem getAt_cons_succ {α : Type} (x : Option α) (xs : List (Option α)) (n : Nat) :
    getAt (x :: xs) (n + 1) = getAt xs n := by
  simp [getAt]

theorem getAt_nil {α : Type} (i : Nat) : getAt ([] : List (Option α)) i = none := by
  simp [getAt]

theorem length_setAt {α : Type} (l : List (Option α)) (i : Nat) (a : α) :
    (setAt l i a).length = max l.length (i + 1) := by
  induction l generalizing i with
  | nil =>
    induction i with
    | zero => simp [setAt]
    | succ n ih =>
      simp only [setAt, List.length_cons, List.length_nil, ih]
      omega
  | cons x xs ih =>
    cases i with
    | zero =>
      simp only [setAt, List.length_cons]
      omega
    | succ n =>
      simp only [setAt, List.length_cons, ih]
      omega

theorem getAt_setAt_self {α : Type} (l : List (Option α)) (i : Nat) (a : α) :
    getAt (setAt l i a) i = some a := by
  induction l generalizing i with
  | nil =>
    induction i with
    | zero => simp [setAt, getAt]
    | succ n ih => simpa [setAt, getAt_cons_succ] using ih
  | cons x xs ih =>
    cases i with
    | zero => simp [setAt, getAt_cons_zero]
    | succ n => simpa [setAt, getAt_cons_succ] using ih n

theorem getAt_setAt_ne {α : Type} (l : List (Option α)) (i j : Nat) (a : α)
    (h : j ≠ i) : getAt (setAt l i a) j = getAt l j := by
  induction l generalizing i j with
  | nil =>
    induction i generalizing j with
    | zero =>
      cases j with
      | zero => exact absurd rfl h
      | succ m => simp [setAt, getAt]
    | succ n ih =>
      cases j with
      | zero => simp [setAt, getAt_cons_zero, getAt_nil]
      | succ m =>
        rw [setAt, getAt_cons_succ, getAt_nil, ih m (by omega), getAt_nil]
  | cons x xs ih =>
    cases i with
    | zero =>
      cases j with
      | zero => exact absurd rfl h
      | succ m => simp [setAt, getAt_cons_succ]
    | succ n =>
      cases j with
      | zero => simp [setAt, getAt_cons_zero]
      | succ m => rw [setAt, getAt_cons_succ, getAt_cons_succ, ih n m (by omega)]

theorem mem_setAt {α : Type} (l : List (Option α)) (i : Nat) (a : α)
    (o : Option α) (h : o ∈ setAt l i a) : o = some a ∨ o ∈ l ∨ o = none := by
  induction l generalizing i with
  | nil =>
    induction i with
    | zero => left; simpa [setAt] using h
    | succ n ih =>
      rw [setAt] at h
      rcases List.mem_cons.mp h with h | h
      · right; right; exact h
      · rcases ih h with h | h | h
        · left; exact h
        · cases h
        · right; right; exact h
  | cons x xs ih =>
    cases i with
    | zero =>
      rcases List.mem_cons.mp h with h | h
      · left; exact h
      · right; left; exact List.mem_cons_of_mem _ h
    | succ n =>
      rcases List.mem_cons.mp h with h | h
      · right; left; rw [h]; exact List.mem_cons_self _ _
      · rcases ih n h with h | h | h
        · left; exact h
        · right; left; exact List.mem_cons_of_mem _ h
        · right; right; exact h

/-! ## Session invariant -/

theorem inv_initState (qs : List Question) (tl : Nat) : Inv (initState qs tl) := by
  refine ⟨?_, ?_, ?_⟩
  · simp only [initState]
    omega
  · simp [initState]
  · intro a ha
    simp [initState] at ha

theorem currentQuestion_lt_of_getCurrent (s : QuizState) (q : Question)
    (hq : getCurrentQuestionData s = some q) :
    s.currentQuestion < s.questions.length :=
  (List.getElem?_eq_some.mp hq).1

theorem makeAnswer_points (q : Question) (sel : String) :
    (makeAnswer q sel).points
      = if (makeAnswer q sel).isCorrect then q.points else 0 := by
  simp [makeAnswer]

theorem inv_record (s : QuizState) (q : Question) (sel : String)
    (h : Inv s) (hq : getCurrentQuestionData s = some q) :
    Inv { s with answers := setAt s.answers s.currentQuestion (makeAnswer q sel) } := by
  obtain ⟨h1, h2, h3⟩ := h
  have hlt : s.currentQuestion < s.questions.length :=
    currentQuestion_lt_of_getCurrent s q hq
  refine ⟨h1, ?_, ?_⟩
  · simp only [length_setAt]
    omega
  · intro a ha
    rcases mem_setAt _ _ _ _ ha with hm | hm | hm
    · have ha' : a = makeAnswer q sel := by injection hm
      subst ha'
      exact ⟨q, List.getElem?_mem hq, makeAnswer_points q sel⟩
    · exact h3 a hm
    · simp at hm

theorem inv_handleQuizComplete (s : QuizState) (h : Inv s) :
    Inv (handleQuizComplete s) := by
  rcases hsel : s.selectedAnswer with _ | sel <;>
    rcases hq : getCurrentQuestionData s with _ | q <;>
    simp only [handleQuizComplete, hsel, hq]
  · exact h
  · exact h
  · exact h
  · split
    · exact inv_record s q sel h hq
    · exact h

theorem inv_handleNextQuestion (s : QuizState) (h : Inv s) :
    Inv (handleNextQuestion s) := by
  rcases hsel : s.selectedAnswer with _ | sel <;>
    rcases hq : getCurrentQuestionData s with _ | q <;>
    simp only [handleNextQuestion, hsel, hq]
  · exact h
  · exact h
  · exact h
  · split
    · exact h
    · have hrec := inv_record s q sel h hq
      split
      · obtain ⟨r1, r2, r3⟩ := hrec
        refine ⟨?_, r2, r3⟩
        have := currentQuestion_lt_of_getCurrent s q hq
        simp only
        omega
      · exact inv_handleQuizComplete _ hrec

theorem inv_handlePreviousQuestion (s : QuizState) (h : Inv s) :
    Inv (handlePreviousQuestion s) := by
  obtain ⟨h1, h2, h3⟩ := h
  unfold handlePreviousQuestion
  split
  · refine ⟨?_, h2, h3⟩
    simp only at h1 ⊢
    omega
  · exact ⟨h1, h2, h3⟩

theorem inv_step (s : QuizState) (e : Event) (h : Inv s) : Inv (step s e) := by
  cases e <;> simp only [step]
  case select l =>
    split
    · exact h
    · exact h
  case next =>
    split
    · exact inv_handleNextQuestion s h
    · exact h
  case prev =>
    split
    · exact inv_handlePreviousQuestion s h
    · exact h
  case completeBtn =>
    split
    · exact inv_handleQuizComplete s h
    · exact h
  case tick =>
    split
    · exact h
    · split
      · exact inv_handleQuizComplete s h
      · exact h
  case retake =>
    split
    · refine ⟨by simp only; omega, by simp, ?_⟩
      intro a ha
      simp at ha
    · exact h

theorem inv_run (s : QuizState) (evs : List Event) (h : Inv s) : Inv (run s evs) := by
  induction evs generalizing s with
  | nil =>
    exact h
  | cons e t ih =>
    exact ih (step s e) (inv_step s e h)


/-! ## Scoring lemmas -/

theorem sum_points_eq_correct (l : List (Option AnsweredQuestion))
    (H : ∀ a : AnsweredQuestion, some a ∈ l → a.isCorrect = false → a.points = 0) :
    (l.map (fun a => (a.map AnsweredQuestion.points).getD 0)).sum
      = (((l.filterMap id).filter (fun a => a.isCorrect)).map AnsweredQuestion.points).sum := by
  induction l with
  | nil => rfl
  | cons o t ih =>
    have Ht : ∀ a : AnsweredQuestion, some a ∈ t → a.isCorrect = false → a.points = 0 :=
      fun a ha => H a (List.mem_cons_of_mem _ ha)
    cases o with
    | none => simpa using ih Ht
    | some a =>
      by_cases hc : a.isCorrect
      · simp [hc, ih Ht]
      · have h0 := H a (List.mem_cons_self _ _) (by simpa using hc)
        simp [hc, h0, ih Ht]

theorem sum_points_eq_mul (p : Nat) (l : List (Option AnsweredQuestion))
    (H : ∀ a : AnsweredQuestion, some a ∈ l → a.points = if a.isCorrect then p else 0) :
    (l.map (fun a => (a.map AnsweredQuestion.points).getD 0)).sum
      = p * (l.filter (fun a => (a.map AnsweredQuestion.isCorrect).getD false)).length := by
  induction l with
  | nil => simp
  | cons o t ih =>
    have Ht : ∀ a : AnsweredQuestion, some a ∈ t → a.points = if a.isCorrect then p else 0 :=
      fun a ha => H a (List.mem_cons_of_mem _ ha)
    cases o with
    | none => simpa using ih Ht
    | some a =>
      have hpa := H a (List.mem_cons_self _ _)
      by_cases hc : a.isCorrect
      · rw [hc, if_pos rfl] at hpa
        simp [hc, hpa, ih Ht, Nat.mul_add, Nat.mul_one, Nat.add_comm]
      · rw [if_neg hc] at hpa
        simp [hc, hpa, ih Ht]

theorem count_correct_eq (l : List (Option AnsweredQuestion)) :
    (l.filter (fun a => (a.map AnsweredQuestion.isCorrect).getD false)).length
      = ((l.filterMap id).filter (fun a => a.isCorrect)).length := by
  induction l with
  | nil => rfl
  | cons o t ih =>
    cases o with
    | none => simpa using ih
    | some a => by_cases hc : a.isCorrect <;> simp [hc, ih]

theorem sum_map_points_const (qs : List Question) (p : Nat)
    (H : ∀ q ∈ qs, q.points = p) :
    (qs.map Question.points).sum = qs.length * p := by
  induction qs with
  | nil => simp
  | cons q t ih =>
    have hq := H q (List.mem_cons_self _ _)
    have Ht : ∀ x ∈ t, Question.points x = p := fun x hx => H x (List.mem_cons_of_mem _ hx)
    simp [hq, ih Ht, Nat.succ_mul, Nat.add_comm]

theorem calculateScore_percentage (s : QuizState) :
    (calculateScore s).percentage
      = if 0 < (calculateScore s).maxPoints then
          jsRound (((calculateScore s).points : ℚ) / ((calculateScore s).maxPoints : ℚ) * 100)
        else 0 := rfl

/-! ## C1 -/

/-- C1: in every completed quiz session, earned points are the sum of the
points of the answers recorded correct, max points the sum of the points
of all questions, the percentage is the rounding of `100 * earned / max`
(0 when max is 0), the correct count counts the recorded correct answers,
and for `N` questions each worth `p > 0` points with `k` answered
correctly the percentage equals `round(100 * k / N)`. -/
theorem calculateScore_spec (qs : List Question) (tl : Nat) (evs : List Event)
    (_hc : (run (initState qs tl) evs).quizCompleted = true) :
    ScoreSpec (run (initState qs tl) evs) := by
  have hinv : Inv (run (initState qs tl) evs) := inv_run _ _ (inv_initState qs tl)
  set s := run (initState qs tl) evs with hs
  obtain ⟨h1, h2, h3⟩ := hinv
  have hpoints0 : ∀ a : AnsweredQuestion, some a ∈ s.answers →
      a.isCorrect = false → a.points = 0 := by
    intro a ha hf
    obtain ⟨q, _, hpq⟩ := h3 a ha
    rw [hpq, hf]
    simp
  refine ⟨?_, rfl, ?_, ?_, rfl, ?_⟩
  · exact sum_points_eq_correct s.answers hpoints0
  · rw [calculateScore_percentage]
    by_cases hmax : 0 < (calculateScore s).maxPoints
    · rw [if_pos hmax, if_pos hmax]
      congr 1
      ring
    · rw [if_neg hmax, if_neg hmax]
  · exact count_correct_eq s.answers
  · intro p hp hne hall
    have H2 : ∀ a : AnsweredQuestion, some a ∈ s.answers →
        a.points = if a.isCorrect then p else 0 := by
      intro a ha
      obtain ⟨q, hqmem, hpq⟩ := h3 a ha
      rw [hpq, hall q hqmem]
    have hmul : (calculateScore s).points = p * (calculateScore s).correctAnswers :=
      sum_points_eq_mul p s.answers H2
    have hmaxp : (calculateScore s).maxPoints = s.questions.length * p :=
      sum_map_points_const s.questions p hall
    have hlen : 0 < s.questions.length := List.length_pos.mpr hne
    have hmaxpos : 0 < (calculateScore s).maxPoints := by
      rw [hmaxp]
      exact Nat.mul_pos hlen hp
    rw [calculateScore_percentage, if_pos hmaxpos, hmul, hmaxp]
    congr 1
    have hpq : (p : ℚ) ≠ 0 := Nat.cast_ne_zero.mpr (Nat.pos_iff_ne_zero.mp hp)
    have hlq : (s.questions.length : ℚ) ≠ 0 :=
      Nat.cast_ne_zero.mpr (Nat.pos_iff_ne_zero.mp hlen)
    push_cast
    field_simp
    ring

/-- Witness for C1: a one-question 10-point session, answered `B` and
completed, satisfies the scoring property. -/
theorem calculateScore_spec_witness :
    (run (initState [qB10] 600) demoEvents).quizCompleted = true
    ∧ ScoreSpec (run (initState [qB10] 600) demoEvents) :=
  ⟨by decide, calculateScore_spec [qB10] 600 demoEvents (by decide)⟩


/-! ## C3 -/

theorem handleQuizComplete_eq_of_some (t : QuizState)
    (h : (getAt t.answers t.currentQuestion).isSome = true) :
    handleQuizComplete t = { t with quizCompleted := true } := by
  rcases hsel : t.selectedAnswer with _ | sel <;>
    rcases hq : getCurrentQuestionData t with _ | q <;>
    simp only [handleQuizComplete, hsel, hq]
  rw [if_neg]
  intro hcon
  rw [hcon.2] at h
  cases h

/-- C3: advancing is a no-op without a pending answer; when enabled it
records an `AnsweredQuestion` at the current position whose `isCorrect`
is the case- and whitespace-insensitive comparison of the selected
letter with the question's `correctAnswer` and whose points are the
question's points iff correct (else 0), then either increments the
pointer or, at the last question, completes the session. -/
theorem handleNextQuestion_spec (s : QuizState) (sel : String) (q : Question)
    (hsel : s.selectedAnswer = some sel) (hne : sel ≠ "")
    (hq : getCurrentQuestionData s = some q) :
    getAt (handleNextQuestion s).answers s.currentQuestion = some (makeAnswer q sel)
    ∧ (makeAnswer q sel).isCorrect = (jsUpperTrim sel == jsUpperTrim q.correctAnswer)
    ∧ (makeAnswer q sel).points
        = (if jsUpperTrim sel == jsUpperTrim q.correctAnswer then q.points else 0)
    ∧ (s.currentQuestion < s.questions.length - 1 →
        (handleNextQuestion s).currentQuestion = s.currentQuestion + 1
        ∧ (handleNextQuestion s).quizCompleted = s.quizCompleted)
    ∧ (¬ s.currentQuestion < s.questions.length - 1 →
        (handleNextQuestion s).quizCompleted = true
        ∧ (handleNextQuestion s).currentQuestion = s.currentQuestion)
    ∧ (∀ t : QuizState, t.selectedAnswer = none → handleNextQuestion t = t) := by
  have hnoop : ∀ t : QuizState, t.selectedAnswer = none → handleNextQuestion t = t := by
    intro t ht
    rcases htq : getCurrentQuestionData t with _ | q2 <;>
      simp only [handleNextQuestion, ht, htq]
  have hmk1 : (makeAnswer q sel).isCorrect
      = (jsUpperTrim sel == jsUpperTrim q.correctAnswer) := by
    simp [makeAnswer]
  have hmk2 : (makeAnswer q sel).points
      = (if jsUpperTrim sel == jsUpperTrim q.correctAnswer then q.points else 0) := by
    simp [makeAnswer]
  by_cases hlast : s.currentQuestion < s.questions.length - 1
  · have hred : handleNextQuestion s
        = { s with answers := setAt s.answers s.currentQuestion (makeAnswer q sel),
                   currentQuestion := s.currentQuestion + 1,
                   selectedAnswer := none,
                   showExplanation := false } := by
      simp only [handleNextQuestion, hsel, hq]
      rw [if_neg hne, if_pos hlast]
    refine ⟨?_, hmk1, hmk2, ?_, ?_, hnoop⟩
    · rw [hred]
      exact getAt_setAt_self s.answers s.currentQuestion (makeAnswer q sel)
    · intro _
      rw [hred]
      exact ⟨rfl, rfl⟩
    · intro hcon
      exact absurd hlast hcon
  · have hred : handleNextQuestion s
        = { s with answers := setAt s.answers s.currentQuestion (makeAnswer q sel),
                   quizCompleted := true } := by
      simp only [handleNextQuestion, hsel, hq]
      rw [if_neg hne, if_neg hlast]
      rw [handleQuizComplete_eq_of_some _ (by simp [getAt_setAt_self])]
    refine ⟨?_, hmk1, hmk2, ?_, ?_, hnoop⟩
    · rw [hred]
      exact getAt_setAt_self s.answers s.currentQuestion (makeAnswer q sel)
    · intro hcon
      exact absurd hcon hlast
    · intro _
      rw [hred]
      exact ⟨rfl, rfl⟩

/-- Witness for C3: with the 10-point `B` question, selecting `B` and
advancing records a correct answer worth 10 points; selecting `c`
yields an incorrect answer worth 0. -/
theorem handleNextQuestion_spec_witness :
    (sB.selectedAnswer = some "B" ∧ ("B" : String) ≠ ""
      ∧ getCurrentQuestionData sB = some qB10)
    ∧ getAt (handleNextQuestion sB).answers sB.currentQuestion = some (makeAnswer qB10 "B")
    ∧ (makeAnswer qB10 "B").isCorrect = true ∧ (makeAnswer qB10 "B").points = 10
    ∧ (makeAnswer qB10 "c").isCorrect = false ∧ (makeAnswer qB10 "c").points = 0 :=
  ⟨⟨rfl, by decide, by decide⟩,
    (handleNextQuestion_spec sB "B" qB10 rfl (by decide) (by decide)).1,
    by decide, by decide, by decide, by decide⟩

/-! ## C4 -/

/-- C4: from a reachable uncompleted session state, the only events that
complete the session are pressing Complete Quiz at the last question
with an answer pending and the countdown reaching zero (which
auto-records a pending answer into an empty slot); and every reachable
completed state has at most as many recorded answer slots as
questions. -/
theorem quiz_completion_spec (qs : List Question) (tl : Nat) (evs : List Event) (e : Event) :
    ((run (initState qs tl) evs).quizCompleted = false →
      (step (run (initState qs tl) evs) e).quizCompleted = true →
      ((e = Event.completeBtn
          ∧ (run (initState qs tl) evs).currentQuestion
              = (run (initState qs tl) evs).questions.length - 1
          ∧ isTruthyStr (run (initState qs tl) evs).selectedAnswer = true)
        ∨ (e = Event.tick ∧ (run (initState qs tl) evs).timeLeft = 0)))
    ∧ ((run (initState qs tl) evs).quizCompleted = true →
        (run (initState qs tl) evs).answers.length
          ≤ (run (initState qs tl) evs).questions.length)
    ∧ (∀ (sel : String) (q : Question),
        (run (initState qs tl) evs).timeLeft = 0 →
        (run (initState qs tl) evs).quizCompleted = false →
        (run (initState qs tl) evs).selectedAnswer = some sel → sel ≠ "" →
        getCurrentQuestionData (run (initState qs tl) evs) = some q →
        getAt (run (initState qs tl) evs).answers
            (run (initState qs tl) evs).currentQuestion = none →
        getAt (step (run (initState qs tl) evs) Event.tick).answers
            (run (initState qs tl) evs).currentQuestion = some (makeAnswer q sel)) := by
  have hinv : Inv (run (initState qs tl) evs) := inv_run _ _ (inv_initState qs tl)
  set s := run (initState qs tl) evs with hs
  obtain ⟨h1, h2, h3⟩ := hinv
  refine ⟨?_, fun _ => h2, ?_⟩
  · intro hnc hcomp
    cases e with
    | select l =>
      exfalso
      rw [step] at hcomp
      split at hcomp
      · rw [handleAnswerSelect] at hcomp
        simp only at hcomp
        rw [hnc] at hcomp
        cases hcomp
      · rw [hnc] at hcomp
        cases hcomp
    | next =>
      exfalso
      rw [step] at hcomp
      split at hcomp
      case isTrue hg =>
        rcases hsel : s.selectedAnswer with _ | sel <;>
          rcases hq : getCurrentQuestionData s with _ | q <;>
          simp only [handleNextQuestion, hsel, hq] at hcomp <;>
          try (rw [hnc] at hcomp; cases hcomp)
        by_cases hne : sel = ""
        · rw [if_pos hne, hnc] at hcomp
          cases hcomp
        · rw [if_neg hne, if_pos hg.2] at hcomp
          simp only at hcomp
          rw [hnc] at hcomp
          cases hcomp
      case isFalse =>
        rw [hnc] at hcomp
        cases hcomp
    | prev =>
      exfalso
      rw [step, if_pos hnc] at hcomp
      rw [handlePreviousQuestion] at hcomp
      split at hcomp
      · have h9 : s.quizCompleted = true := hcomp
        rw [hnc] at h9
        cases h9
      · rw [hnc] at hcomp
        cases hcomp
    | completeBtn =>
      left
      rw [step] at hcomp
      split at hcomp
      case isTrue hg =>
        refine ⟨rfl, ?_, hg.2.2⟩
        have := hg.2.1
        omega
      case isFalse =>
        rw [hnc] at hcomp
        cases hcomp
    | tick =>
      right
      rw [step] at hcomp
      split at hcomp
      case isTrue =>
        exfalso
        simp only at hcomp
        rw [hnc] at hcomp
        cases hcomp
      case isFalse =>
        split at hcomp
        case isTrue hg => exact ⟨rfl, hg.1⟩
        case isFalse =>
          exfalso
          rw [hnc] at hcomp
          cases hcomp
    | retake =>
      exfalso
      rw [step] at hcomp
      split at hcomp
      · simp only at hcomp
        cases hcomp
      · rw [hnc] at hcomp
        cases hcomp
  · intro sel q ht0 hnc hsel hne hq hempty
    rw [step]
    rw [if_neg (by omega), if_pos ⟨ht0, hnc⟩]
    rcases hcond : s.selectedAnswer with _ | sel2
    · rw [hsel] at hcond
      cases hcond
    · rw [hsel] at hcond
      injection hcond with hsel2
      subst hsel2
      simp only [handleQuizComplete, hsel, hq]
      rw [if_pos ⟨hne, hempty⟩]
      exact getAt_setAt_self s.answers s.currentQuestion (makeAnswer q sel)

/-- Witness for C4: after selecting `B` in the one-question demo
session, pressing Complete Quiz completes it, and that transition is
recognised as the last-question completion; the completed state stores
at most one answer. -/
theorem quiz_completion_spec_witness :
    ((run (initState [qB10] 600) [Event.select "B"]).quizCompleted = false
      ∧ (step (run (initState [qB10] 600) [Event.select "B"]) Event.completeBtn).quizCompleted
          = true)
    ∧ ((Event.completeBtn = Event.completeBtn
        ∧ (run (initState [qB10] 600) [Event.select "B"]).currentQuestion
            = (run (initState [qB10] 600) [Event.select "B"]).questions.length - 1
        ∧ isTruthyStr (run (initState [qB10] 600) [Event.select "B"]).selectedAnswer = true)
      ∨ (Event.completeBtn = Event.tick
        ∧ (run (initState [qB10] 600) [Event.select "B"]).timeLeft = 0)) :=
  ⟨⟨by decide, by decide⟩,
    (quiz_completion_spec [qB10] 600 [Event.select "B"] Event.completeBtn).1
      (by decide) (by decide)⟩

/-! ## C10 -/

/-- C10: the completion transition records the pending selection only
into an empty slot at the current position, never overwrites an
already-recorded answer there, and leaves every other position
unchanged. -/
theorem handleQuizComplete_frame (s : QuizState) :
    (∀ j : Nat, j ≠ s.currentQuestion →
      getAt (handleQuizComplete s).answers j = getAt s.answers j)
    ∧ ((getAt s.answers s.currentQuestion).isSome →
        (handleQuizComplete s).answers = s.answers)
    ∧ (∀ (sel : String) (q : Question),
        s.selectedAnswer = some sel → sel ≠ "" →
        getCurrentQuestionData s = some q →
        getAt s.answers s.currentQuestion = none →
        getAt (handleQuizComplete s).answers s.currentQuestion
          = some (makeAnswer q sel)) := by
  refine ⟨?_, ?_, ?_⟩
  · intro j hj
    rcases hsel : s.selectedAnswer with _ | sel <;>
      rcases hq : getCurrentQuestionData s with _ | q <;>
      simp only [handleQuizComplete, hsel, hq]
    split
    · exact getAt_setAt_ne s.answers s.currentQuestion j (makeAnswer q sel) hj
    · rfl
  · intro hsome
    rcases hsel : s.selectedAnswer with _ | sel <;>
      rcases hq : getCurrentQuestionData s with _ | q <;>
      simp only [handleQuizComplete, hsel, hq]
    rw [if_neg]
    intro hcon
    rw [hcon.2] at hsome
    cases hsome
  · intro sel q hsel hne hq hempty
    simp only [handleQuizComplete, hsel, hq]
    rw [if_pos ⟨hne, hempty⟩]
    exact getAt_setAt_self s.answers s.currentQuestion (makeAnswer q sel)

/-- Witness for C10: in a session whose current slot already stores a
recorded answer, completing does not change the answers array. -/
theorem handleQuizComplete_frame_witness :
    (getAt sRecorded.answers sRecorded.currentQuestion).isSome = true
    ∧ (handleQuizComplete sRecorded).answers = sRecorded.answers :=
  ⟨by decide, (handleQuizComplete_frame sRecorded).2.1 (by decide)⟩


/-! ## C2 -/

theorem trimChars_ws_single (pre post : List Char) (c : Char)
    (hpre : ∀ x ∈ pre, x.isWhitespace = true)
    (hpost : ∀ x ∈ post, x.isWhitespace = true)
    (hc : c.isWhitespace = false) :
    trimChars (pre ++ c :: post) = [c] := by
  unfold trimChars
  have h1 : pre.dropWhile Char.isWhitespace = [] := List.dropWhile_eq_nil_iff.mpr hpre
  rw [List.dropWhile_append, h1]
  simp only [List.isEmpty_nil, if_true]
  rw [List.dropWhile_cons]
  simp only [hc, Bool.false_eq_true, if_false]
  rw [List.reverse_cons]
  have h2 : post.reverse.dropWhile Char.isWhitespace = [] :=
    List.dropWhile_eq_nil_iff.mpr (fun x hx => hpost x (List.mem_reverse.mp hx))
  rw [List.dropWhile_append, h2]
  simp only [List.isEmpty_nil, if_true]
  rw [List.dropWhile_cons]
  simp only [hc, Bool.false_eq_true, if_false, List.reverse_cons, List.reverse_nil,
    List.nil_append]

/-- Counterexample for C2: the raw answer key `"e"` normalizes to `"E"`,
outside `{A, B, C, D}`; the claimed membership does not hold for every
raw question payload. -/
theorem processQuestion_correctAnswer_counterexample :
    (processQuestion 0 rqE).correctAnswer = "E"
    ∧ (processQuestion 0 rqE).correctAnswer ∉ (["A", "B", "C", "D"] : List String) := by
  decide

/-- C2 (amended): `processQuizData` sets `correctAnswer` to the
upper-cased, trimmed raw key (`correct_answer` or `correctAnswer`,
default `A`); whenever the raw key is a single letter `a`-`d` in either
case surrounded only by whitespace, the result is one of exactly
`{A, B, C, D}`. -/
theorem processQuestion_correctAnswer_spec (i : Nat) (rq : RawQuestion)
    (pre post : List Char) (c : Char)
    (hdata : ((jsStrOr rq.correct_answer (jsStrOr rq.correctAnswer "A")).data.map Char.toUpper)
        = pre ++ c :: post)
    (hpre : ∀ x ∈ pre, x.isWhitespace = true)
    (hpost : ∀ x ∈ post, x.isWhitespace = true)
    (hmem : c ∈ (['A', 'B', 'C', 'D'] : List Char)) :
    (processQuestion i rq).correctAnswer ∈ (["A", "B", "C", "D"] : List String)
    ∧ (processQuestion i rq).correctAnswer
        = jsUpperTrim (jsStrOr rq.correct_answer (jsStrOr rq.correctAnswer "A")) := by
  refine ⟨?_, rfl⟩
  simp only [List.mem_cons, List.not_mem_nil, or_false] at hmem
  have hc : c.isWhitespace = false := by
    rcases hmem with h | h | h | h <;> subst h <;> decide
  have hval : (processQuestion i rq).correctAnswer = String.mk [c] := by
    show jsUpperTrim (jsStrOr rq.correct_answer (jsStrOr rq.correctAnswer "A")) = _
    rw [jsUpperTrim, hdata, trimChars_ws_single pre post c hpre hpost hc]
  rw [hval]
  rcases hmem with h | h | h | h <;> subst h <;> decide

/-- Witness for C2: the raw key `" b "` (under either key spelling)
normalizes to `"B"`, a member of `{A, B, C, D}`. -/
theorem processQuestion_correctAnswer_spec_witness :
    ((jsStrOr rqB.correct_answer (jsStrOr rqB.correctAnswer "A")).data.map Char.toUpper
        = [' '] ++ 'B' :: [' ']
      ∧ (jsStrOr rqB2.correct_answer (jsStrOr rqB2.correctAnswer "A")).data.map Char.toUpper
        = [' '] ++ 'B' :: [' '])
    ∧ (processQuestion 0 rqB).correctAnswer ∈ (["A", "B", "C", "D"] : List String)
    ∧ (processQuestion 7 rqB2).correctAnswer ∈ (["A", "B", "C", "D"] : List String)
    ∧ (processQuestion 0 rqB).correctAnswer = "B" :=
  ⟨⟨by decide, by decide⟩,
    (processQuestion_correctAnswer_spec 0 rqB [' '] [' '] 'B' (by decide)
      (by decide) (by decide) (by decide)).1,
    (processQuestion_correctAnswer_spec 7 rqB2 [' '] [' '] 'B' (by decide)
      (by decide) (by decide) (by decide)).1,
    by decide⟩


/-! ## C5 -/

/-- Counterexample for C5: on the `null` input, `extractCourseData`
returns `null`, not a Course value. -/
theorem extractCourseData_null : extractCourseData none = none := rfl

/-- C5 (amended): `extractCourseData` produces a Course for every
non-null raw payload (a Course exactly when the input is non-null), and
a payload with no modules anywhere yields `modules = []` and
`modules_count = 0`. -/
theorem extractCourseData_spec (rc : RawCourse)
    (h1 : (resolveCourseStructure rc).modules = none)
    (h2 : rc.payload.modules = none)
    (h3 : rc.modules_count = none) :
    (extractCourseData (some rc)).isSome = true
    ∧ (extractCourseData (some rc)).map Course.modules = some []
    ∧ (extractCourseData (some rc)).map Course.modules_count = some 0
    ∧ ∀ o : Option RawCourse, (extractCourseData o).isSome = o.isSome := by
  refine ⟨rfl, ?_, ?_, ?_⟩
  · simp only [extractCourseData, Option.map_some', Option.some.injEq]
    rw [h1, h2]
    rfl
  · simp only [extractCourseData, Option.map_some', Option.some.injEq]
    rw [h1, h3]
    rfl
  · intro o
    cases o <;> rfl

/-- Witness for C5: the empty raw course yields a Course with no modules
and a zero module count. -/
theorem extractCourseData_spec_witness :
    ((resolveCourseStructure rcEmpty).modules = none
      ∧ rcEmpty.payload.modules = none ∧ rcEmpty.modules_count = none)
    ∧ (extractCourseData (some rcEmpty)).isSome = true
    ∧ (extractCourseData (some rcEmpty)).map Course.modules = some []
    ∧ (extractCourseData (some rcEmpty)).map Course.modules_count = some 0 :=
  ⟨⟨by decide, by decide, by decide⟩,
    (extractCourseData_spec rcEmpty (by decide) (by decide) (by decide)).1,
    (extractCourseData_spec rcEmpty (by decide) (by decide) (by decide)).2.1,
    (extractCourseData_spec rcEmpty (by decide) (by decide) (by decide)).2.2.1⟩

/-! ## C6 -/

/-- Counterexample for C6: on a payload carrying both nested shapes the
two resolvers disagree - `extractCourseData` picks
`course_structure.course` while UploadPage's `getActualCourseData`
picks `actualCourse` - so not every component obeys the claimed
precedence order. -/
theorem course_payload_precedence_counterexample :
    rcBoth.course_structure.bind StructureWrapper.course = some payloadOne
    ∧ rcBoth.actualCourse = some payloadTwo
    ∧ resolveCourseStructure rcBoth = payloadOne
    ∧ getActualCourseData rcBoth = payloadTwo
    ∧ payloadOne ≠ payloadTwo := by
  decide

/-- C6 (amended): `extractCourseData` resolves the nested payload in the
order `course_structure.course`, then `actualCourse`, then the object
itself; UploadPage's `getActualCourseData` instead checks `actualCourse`
first, then `course_structure.course`, then the object itself. -/
theorem course_payload_precedence (rc : RawCourse) (p : CoursePayload) :
    (rc.course_structure.bind StructureWrapper.course = some p →
      resolveCourseStructure rc = p)
    ∧ (rc.course_structure.bind StructureWrapper.course = none →
      rc.actualCourse = some p → resolveCourseStructure rc = p)
    ∧ (rc.course_structure.bind StructureWrapper.course = none →
      rc.actualCourse = none → resolveCourseStructure rc = rc.payload)
    ∧ (rc.actualCourse = some p → getActualCourseData rc = p)
    ∧ (rc.actualCourse = none →
      rc.course_structure.bind StructureWrapper.course = some p →
      getActualCourseData rc = p)
    ∧ (rc.actualCourse = none →
      rc.course_structure.bind StructureWrapper.course = none →
      getActualCourseData rc = rc.payload) := by
  refine ⟨?_, ?_, ?_, ?_, ?_, ?_⟩
  · intro h
    simp only [resolveCourseStructure, h]
  · intro h h2
    simp only [resolveCourseStructure, h, h2]
  · intro h h2
    simp only [resolveCourseStructure, h, h2]
  · intro h
    simp only [getActualCourseData, h]
  · intro h h2
    simp only [getActualCourseData, h, h2]
  · intro h h2
    simp only [getActualCourseData, h, h2]

/-- Witness for C6: on `rcBoth` the context resolver returns the
`course_structure.course` payload while the UploadPage resolver returns
the `actualCourse` payload. -/
theorem course_payload_precedence_witness :
    (rcBoth.course_structure.bind StructureWrapper.course = some payloadOne
      ∧ rcBoth.actualCourse = some payloadTwo)
    ∧ resolveCourseStructure rcBoth = payloadOne
    ∧ getActualCourseData rcBoth = payloadTwo :=
  ⟨⟨by decide, by decide⟩,
    (course_payload_precedence rcBoth payloadOne).1 (by decide),
    (course_payload_precedence rcBoth payloadTwo).2.2.2.1 (by decide)⟩

/-! ## C7 -/

theorem jsStrOr_ne_empty (o : Option String) (d : String) (hd : d ≠ "") :
    jsStrOr o d ≠ "" := by
  cases o with
  | none => exact hd
  | some s =>
    simp only [jsStrOr]
    split
    · exact hd
    · assumption

/-- Counterexample for C7: when the initial health check fails, the mock
dataset is substituted but NO error string is recorded (`error` stays
empty), so an error is not recorded in every failure case. -/
theorem fetchCourses_healthcheck_counterexample :
    (fetchCourses false (Except.error "Failed to fetch")).courses.length = 1
    ∧ (fetchCourses false (Except.error "Failed to fetch")).error = "" := by
  decide

/-- C7 (amended): every course-listing failure path replaces the store
collection with exactly the fixed one-course mock dataset; a non-empty
error string is recorded when the recent-courses call throws or returns
unsuccessfully, but the health-check-failure path records no error
(`error` remains the empty string). -/
theorem fetchCourses_failure_spec (msg : String) (r : ApiResponse) :
    (∀ resp : Except String ApiResponse,
      (fetchCourses false resp).courses = getMockCourses.map StoreEntry.raw
      ∧ (fetchCourses false resp).courses.length = 1
      ∧ (fetchCourses false resp).error = "")
    ∧ ((fetchCourses true (Except.error msg)).courses = getMockCourses.map StoreEntry.raw
      ∧ (fetchCourses true (Except.error msg)).courses.length = 1
      ∧ (fetchCourses true (Except.error msg)).error = "Connection failed: " ++ msg
      ∧ (fetchCourses true (Except.error msg)).error ≠ "")
    ∧ (r.success = false ∨ r.courses = none →
      (fetchCourses true (Except.ok r)).courses = getMockCourses.map StoreEntry.raw
      ∧ (fetchCourses true (Except.ok r)).courses.length = 1
      ∧ (fetchCourses true (Except.ok r)).error = jsStrOr r.error "No courses found"
      ∧ (fetchCourses true (Except.ok r)).error ≠ "") := by
  refine ⟨?_, ?_, ?_⟩
  · intro resp
    refine ⟨rfl, rfl, rfl⟩
  · refine ⟨rfl, rfl, rfl, ?_⟩
    intro h
    rw [show (fetchCourses true (Except.error msg)).error
        = "Connection failed: " ++ msg from rfl] at h
    have h2 := congrArg String.length h
    rw [String.length_append] at h2
    rw [show ("Connection failed: " : String).length = 19 from rfl,
      show ("" : String).length = 0 from rfl] at h2
    omega
  · intro h
    rcases r with ⟨su, co, er⟩
    have hred : fetchCourses true (Except.ok ⟨su, co, er⟩)
        = { courses := getMockCourses.map StoreEntry.raw
            error := jsStrOr er "No courses found"
            loading := false } := by
      rcases h with h | h
      · simp only at h
        subst h
        cases co <;> rfl
      · simp only at h
        subst h
        cases su <;> rfl
    rw [hred]
    exact ⟨rfl, rfl, rfl,
      jsStrOr_ne_empty er "No courses found" (by decide)⟩

/-- Witness for C7: an unsuccessful response with no error message
yields the one-course mock dataset with the default error string. -/
theorem fetchCourses_failure_spec_witness :
    (respFail.success = false ∨ respFail.courses = none)
    ∧ (fetchCourses true (Except.ok respFail)).courses.length = 1
    ∧ (fetchCourses true (Except.ok respFail)).error = jsStrOr respFail.error "No courses found"
    ∧ (fetchCourses true (Except.ok respFail)).error ≠ "" :=
  ⟨Or.inl (by decide),
    ((fetchCourses_failure_spec "x" respFail).2.2 (Or.inl (by decide))).2.1,
    ((fetchCourses_failure_spec "x" respFail).2.2 (Or.inl (by decide))).2.2.1,
    ((fetchCourses_failure_spec "x" respFail).2.2 (Or.inl (by decide))).2.2.2⟩

/-! ## C8 -/

/-- Counterexample for C8: with the only card already studied, switching
to unstudied mode leaves the pointer at 0 while the filtered deck is
empty, so the pointer is NOT inside `[0, filteredDeck.length)`. -/
theorem switchMode_counterexample :
    (switchMode flashAllStudied StudyMode.unstudied).currentCard = 0
    ∧ (filteredFlashcards (switchMode flashAllStudied StudyMode.unstudied)).length = 0
    ∧ ¬ (switchMode flashAllStudied StudyMode.unstudied).currentCard
        < (filteredFlashcards (switchMode flashAllStudied StudyMode.unstudied)).length := by
  decide

/-- C8 (amended): every study-mode switch resets the pointer to 0 and
the face to front; whenever the newly filtered deck is non-empty the
pointer therefore lies inside `[0, filteredDeck.length)`. -/
theorem switchMode_spec (s : FlashState) (m : StudyMode) :
    (switchMode s m).currentCard = 0
    ∧ ((filteredFlashcards (switchMode s m)).length ≠ 0 →
      (switchMode s m).currentCard < (filteredFlashcards (switchMode s m)).length)
    ∧ (switchMode s m).isFlipped = false
    ∧ (switchMode s m).studyMode = m := by
  refine ⟨rfl, ?_, rfl, rfl⟩
  intro h
  show 0 < (filteredFlashcards (switchMode s m)).length
  omega

/-- Witness for C8: switching the three-card difficult-mode state back
to all-cards mode puts the pointer at 0, inside the non-empty deck. -/
theorem switchMode_spec_witness :
    (filteredFlashcards (switchMode flashThree StudyMode.all)).length ≠ 0
    ∧ (switchMode flashThree StudyMode.all).currentCard
        < (filteredFlashcards (switchMode flashThree StudyMode.all)).length :=
  ⟨by decide, (switchMode_spec flashThree StudyMode.all).2.1 (by decide)⟩

/-! ## C9 -/

/-- C9: shuffling replaces the entire in-memory deck with the chosen
permutation of the currently filtered deck - its length becomes the
filtered length and cards excluded by the active filter are no longer in
the deck - and resets the pointer to 0 and the face to front. -/
theorem shuffleCards_spec (s : FlashState) (perm : List RawFlashcard)
    (hperm : perm.Perm (filteredFlashcards s)) :
    (shuffleCards s perm).flashcards.Perm (filteredFlashcards s)
    ∧ (shuffleCards s perm).flashcards.length = (filteredFlashcards s).length
    ∧ (∀ card ∈ s.flashcards, card ∉ filteredFlashcards s →
        card ∉ (shuffleCards s perm).flashcards)
    ∧ (shuffleCards s perm).currentCard = 0
    ∧ (shuffleCards s perm).isFlipped = false := by
  refine ⟨hperm, hperm.length_eq, ?_, rfl, rfl⟩
  intro card _ hnot hcon
  exact hnot (hperm.mem_iff.mp hcon)

/-- Witness for C9: reversing the two-card filtered deck of the
difficult-mode state yields a two-card deck without the filtered-out
card, pointer 0, front face. -/
theorem shuffleCards_spec_witness :
    shuffledThree.Perm (filteredFlashcards flashThree)
    ∧ (shuffleCards flashThree shuffledThree).flashcards.length
        = (filteredFlashcards flashThree).length
    ∧ (shuffleCards flashThree shuffledThree).currentCard = 0
    ∧ (shuffleCards flashThree shuffledThree).isFlipped = false :=
  ⟨by decide,
    (shuffleCards_spec flashThree shuffledThree (by decide)).2.1,
    (shuffleCards_spec flashThree shuffledThree (by decide)).2.2.2.1,
    (shuffleCards_spec flashThree shuffledThree (by decide)).2.2.2.2⟩

end BrainForge
